import Mathlib

/-!
Shallow embedding of the loan-gauge repository's amortization-schedule code.

Monetary arithmetic is modelled exactly over the rationals. The helper
functions under namespace `npf` embed the closed-form formulas of
numpy-financial's `fv`, `pmt`, `ipmt` and `ppmt` (with `fvv = 0` and payments
due at period end, the way both source modules call them).

Namespace `loan_gauge` embeds `src/loan_gauge/mortgage.py`
(`generate_mortgage_schedule`), including the per-column rounding the code
applies when it builds the output DataFrame: numpy's `np.round` rounds half
to even, and the code rounds five columns to 2 decimal places but the two
cumulative columns (`Interest Paid`, `Principal Paid`) to 0 decimal places.

Namespace `app` embeds `src/app/mortgage.py` (`monthly_payments`), which
applies no rounding, negates the per-month principal and interest columns,
and computes `Remaining Balance` as `principal + cumsum(principal_paid)`.
-/

/-- Round a rational to the nearest integer, ties to even: the semantics of
numpy's `np.rint`, which underlies `np.round`. -/
def roundHalfEven (x : ℚ) : ℤ :=
  if x - (⌊x⌋ : ℚ) < 1/2 then ⌊x⌋
  else if 1/2 < x - (⌊x⌋ : ℚ) then ⌊x⌋ + 1
  else if ⌊x⌋ % 2 = 0 then ⌊x⌋ else ⌊x⌋ + 1

/-- numpy's `np.round(x, d)`: scale by `10 ^ d`, round half to even, unscale. -/
def npRound (x : ℚ) (d : ℕ) : ℚ := (roundHalfEven (x * 10 ^ d) : ℚ) / 10 ^ d

namespace npf

/-- numpy-financial `fv(rate, nper, pmt, pv)` with payments at period end:
the balance after `nper` periods, sign-flipped. For `rate = 0` the factor
`((1+rate)^nper - 1)/rate` degenerates to `nper`, as in the library. -/
def fv (rate : ℚ) (nper : ℕ) (pm pv : ℚ) : ℚ :=
  if rate = 0 then -(pv + pm * nper)
  else -(pv * (1 + rate) ^ nper + pm * ((1 + rate) ^ nper - 1) / rate)

/-- numpy-financial `pmt(rate, nper, pv)`: the fixed periodic payment. -/
def pmt (rate : ℚ) (nper : ℕ) (pv : ℚ) : ℚ :=
  let temp := (1 + rate) ^ nper
  if rate = 0 then -(pv * temp) / (nper : ℚ) else -(pv * temp) / ((temp - 1) / rate)

/-- numpy-financial `ipmt(rate, per, nper, pv)`: the interest part of payment
number `per`, equal to the remaining balance after `per - 1` payments times
the periodic rate. -/
def ipmt (rate : ℚ) (per nper : ℕ) (pv : ℚ) : ℚ :=
  fv rate (per - 1) (pmt rate nper pv) pv * rate

/-- numpy-financial `ppmt(rate, per, nper, pv) = pmt - ipmt`. -/
def ppmt (rate : ℚ) (per nper : ℕ) (pv : ℚ) : ℚ :=
  pmt rate nper pv - ipmt rate per nper pv

end npf

namespace loan_gauge

/-- Monthly interest rate, `annual_interest_rate / 12`. -/
def monthly_interest_rate (annual_interest_rate : ℚ) : ℚ := annual_interest_rate / 12

/-- Number of payments, `years * 12`. -/
def n_payments (years : ℕ) : ℕ := years * 12

/-- The code's `monthly_payment = npf.pmt(monthly_interest_rate, n_payments, -principal)`. -/
def monthly_payment (principal annual_interest_rate : ℚ) (years : ℕ) : ℚ :=
  npf.pmt (monthly_interest_rate annual_interest_rate) (n_payments years) (-principal)

/-- The code's `monthly_interest[m] = npf.ipmt(rate, m, n_payments, -principal)`. -/
def monthly_interest (principal annual_interest_rate : ℚ) (years m : ℕ) : ℚ :=
  npf.ipmt (monthly_interest_rate annual_interest_rate) m (n_payments years) (-principal)

/-- The code's `monthly_principle[m] = npf.ppmt(rate, m, n_payments, -principal)`. -/
def monthly_principle (principal annual_interest_rate : ℚ) (years m : ℕ) : ℚ :=
  npf.ppmt (monthly_interest_rate annual_interest_rate) m (n_payments years) (-principal)

/-- The code's `cumulative_interest = np.cumsum(monthly_interest)`, at month `m`. -/
def cumulative_interest (principal annual_interest_rate : ℚ) (years m : ℕ) : ℚ :=
  ∑ j in Finset.range m, monthly_interest principal annual_interest_rate years (j + 1)

/-- The code's `cumulative_principal = np.cumsum(monthly_principle)`, at month `m`. -/
def cumulative_principal (principal annual_interest_rate : ℚ) (years m : ℕ) : ℚ :=
  ∑ j in Finset.range m, monthly_principle principal annual_interest_rate years (j + 1)

/-- The code's `cumulative_payment = cumulative_interest + cumulative_principal`. -/
def cumulative_payment (principal annual_interest_rate : ℚ) (years m : ℕ) : ℚ :=
  cumulative_interest principal annual_interest_rate years m
    + cumulative_principal principal annual_interest_rate years m

/-- The code's `remaining_balance = principal - cumulative_principal`, at month `m`. -/
def remaining_balance (principal annual_interest_rate : ℚ) (years m : ℕ) : ℚ :=
  principal - cumulative_principal principal annual_interest_rate years m

/-- One row of the DataFrame built by `generate_mortgage_schedule`. -/
structure Row where
  month : ℕ
  monthlyPayment : ℚ
  monthlyPrincipal : ℚ
  monthlyInterest : ℚ
  interestPaid : ℚ
  principalPaid : ℚ
  totalPaid : ℚ
  remainingBalance : ℚ
  deriving Repr, DecidableEq, Inhabited

/-- Row `m` (1-indexed) of the DataFrame, with the rounding the source applies
column by column: 2 decimals everywhere except `Interest Paid` and
`Principal Paid`, which the source passes to `np.round` with no digit count
(so 0 decimals). -/
def mkRow (principal annual_interest_rate : ℚ) (years m : ℕ) : Row :=
  { month := m
    monthlyPayment := npRound (monthly_payment principal annual_interest_rate years) 2
    monthlyPrincipal := npRound (monthly_principle principal annual_interest_rate years m) 2
    monthlyInterest := npRound (monthly_interest principal annual_interest_rate years m) 2
    interestPaid := npRound (cumulative_interest principal annual_interest_rate years m) 0
    principalPaid := npRound (cumulative_principal principal annual_interest_rate years m) 0
    totalPaid := npRound (cumulative_payment principal annual_interest_rate years m) 2
    remainingBalance := npRound (remaining_balance principal annual_interest_rate years m) 2 }

/-- The DataFrame returned by `generate_mortgage_schedule`, one row per month
in `np.arange(1, n_payments + 1)`. -/
def generate_mortgage_schedule (principal annual_interest_rate : ℚ) (years : ℕ) : List Row :=
  (List.range (n_payments years)).map fun i => mkRow principal annual_interest_rate years (i + 1)

end loan_gauge

namespace app

/-- One row of the DataFrame built by `monthly_payments` in `src/app/mortgage.py`. -/
structure Row where
  month : ℕ
  principalPaid : ℚ
  interestPaid : ℚ
  remainingBalance : ℚ
  totalPaid : ℚ
  deriving Repr, DecidableEq, Inhabited

/-- Row `m` (1-indexed) of `monthly_payments`: per-month principal and
interest negated, `Remaining Balance = principal + cumsum(principal_paid)`
where `principal_paid = np.ppmt(...)`, and no rounding anywhere. -/
def mkRow (principal annual_interest_rate : ℚ) (years m : ℕ) : Row :=
  let rate := annual_interest_rate / 12
  let n := years * 12
  { month := m
    principalPaid := -(npf.ppmt rate m n (-principal))
    interestPaid := -(npf.ipmt rate m n (-principal))
    remainingBalance := principal + ∑ j in Finset.range m, npf.ppmt rate (j + 1) n (-principal)
    totalPaid := -(npf.ppmt rate m n (-principal) + npf.ipmt rate m n (-principal)) }

/-- The DataFrame returned by `monthly_payments` (defaults in the source:
`principal = 300000`, `annual_interest_rate = 0.04`, `years = 25`). -/
def monthly_payments (principal annual_interest_rate : ℚ) (years : ℕ) : List Row :=
  (List.range (years * 12)).map fun i => mkRow principal annual_interest_rate years (i + 1)

end app

section helper_lemmas

/-- The balance embedding starts at the negated present value. -/
theorem npf.fv_zero (rate pm pv : ℚ) : npf.fv rate 0 pm pv = -pv := by
  simp [npf.fv]

/-- One-step recurrence of the balance: interest accrues, one payment leaves. -/
theorem npf.fv_succ (rate : ℚ) (k : ℕ) (pm pv : ℚ) :
    npf.fv rate (k + 1) pm pv = npf.fv rate k pm pv * (1 + rate) - pm := by
  unfold npf.fv
  rcases eq_or_ne rate 0 with h | h
  · subst h
    rw [if_pos rfl, if_pos rfl]
    push_cast
    ring
  · rw [if_neg h, if_neg h]
    field_simp
    ring

/-- Interest of payment `k + 1` is the balance after `k` payments times the rate. -/
theorem npf.ipmt_succ (rate : ℚ) (k n : ℕ) (pv : ℚ) :
    npf.ipmt rate (k + 1) n pv = npf.fv rate k (npf.pmt rate n pv) pv * rate := by
  simp [npf.ipmt]

/-- Principal plus interest of any payment recompose the constant payment. -/
theorem npf.ppmt_add_ipmt (rate : ℚ) (per n : ℕ) (pv : ℚ) :
    npf.ppmt rate per n pv + npf.ipmt rate per n pv = npf.pmt rate n pv := by
  simp [npf.ppmt]

/-- Closed form of the balance under the annuity payment, for a nonzero rate. -/
theorem npf.fv_pmt_closed (rate P : ℚ) (n k : ℕ) (h : rate ≠ 0)
    (hA : (1 + rate) ^ n ≠ 1) :
    npf.fv rate k (npf.pmt rate n (-P)) (-P)
      = P * ((1 + rate) ^ n - (1 + rate) ^ k) / ((1 + rate) ^ n - 1) := by
  unfold npf.fv npf.pmt
  rw [if_neg h, if_neg h]
  have hA1 : (1 + rate) ^ n - 1 ≠ 0 := sub_ne_zero.mpr hA
  field_simp
  ring

/-- The annuity payment drives the balance to exactly zero after `n` payments. -/
theorem npf.fv_pmt_final (rate P : ℚ) (n : ℕ) (hr : 0 ≤ rate) (hn : n ≠ 0) :
    npf.fv rate n (npf.pmt rate n (-P)) (-P) = 0 := by
  rcases eq_or_lt_of_le hr with h | h
  · subst h
    unfold npf.fv npf.pmt
    rw [if_pos rfl, if_pos rfl]
    have hn0 : (n : ℚ) ≠ 0 := Nat.cast_ne_zero.mpr hn
    field_simp
  · have h0 : rate ≠ 0 := ne_of_gt h
    have hA : (1 : ℚ) < (1 + rate) ^ n := one_lt_pow₀ (by linarith) hn
    rw [npf.fv_pmt_closed rate P n n h0 (ne_of_gt hA)]
    simp

/-- The code's cumulative principal column equals principal minus the
numpy-financial balance, month by month. -/
theorem loan_gauge.cumulative_principal_eq_fv (P r : ℚ) (y m : ℕ) :
    loan_gauge.cumulative_principal P r y m
      = P - npf.fv (loan_gauge.monthly_interest_rate r) m
          (loan_gauge.monthly_payment P r y) (-P) := by
  induction m with
  | zero => simp [loan_gauge.cumulative_principal, npf.fv_zero]
  | succ k ih =>
    rw [loan_gauge.cumulative_principal, Finset.sum_range_succ,
      ← loan_gauge.cumulative_principal, ih, npf.fv_succ,
      loan_gauge.monthly_principle, npf.ppmt, loan_gauge.monthly_payment,
      npf.ipmt_succ]
    show _ = P - (npf.fv _ k (npf.pmt _ (loan_gauge.n_payments y) (-P)) (-P) * (1 + _) - _)
    ring

/-- For valid parameters, the cumulative principal after the last month is the
whole principal. -/
theorem loan_gauge.cumulative_principal_total (P r : ℚ) (y : ℕ) (hr : 0 ≤ r)
    (hy : 1 ≤ y) :
    loan_gauge.cumulative_principal P r y (loan_gauge.n_payments y) = P := by
  rw [loan_gauge.cumulative_principal_eq_fv, loan_gauge.monthly_payment,
    npf.fv_pmt_final]
  · ring
  · exact div_nonneg hr (by norm_num)
  · simp [loan_gauge.n_payments]
    omega

/-- With a positive rate, the balance strictly decreases at every payment. -/
theorem npf.fv_pmt_strict_anti (rate P : ℚ) (n : ℕ) (hP : 0 < P) (hr : 0 < rate)
    (hn : n ≠ 0) (k : ℕ) :
    npf.fv rate (k + 1) (npf.pmt rate n (-P)) (-P)
      < npf.fv rate k (npf.pmt rate n (-P)) (-P) := by
  have hA : (1 : ℚ) < (1 + rate) ^ n := one_lt_pow₀ (by linarith) hn
  rw [npf.fv_pmt_closed rate P n (k + 1) (ne_of_gt hr) (ne_of_gt hA),
    npf.fv_pmt_closed rate P n k (ne_of_gt hr) (ne_of_gt hA)]
  have hc : (0 : ℚ) < (1 + rate) ^ k := pow_pos (by linarith) k
  have hkey : (1 + rate) ^ k < (1 + rate) ^ (k + 1) := by
    rw [pow_succ]
    nlinarith
  exact div_lt_div_of_pos_right (by nlinarith) (by linarith)

/-- The code's remaining-balance column equals the numpy-financial balance. -/
theorem loan_gauge.remaining_balance_eq_fv (P r : ℚ) (y m : ℕ) :
    loan_gauge.remaining_balance P r y m
      = npf.fv (loan_gauge.monthly_interest_rate r) m
          (loan_gauge.monthly_payment P r y) (-P) := by
  rw [loan_gauge.remaining_balance, loan_gauge.cumulative_principal_eq_fv]
  ring

/-- Indexing the generated schedule with a default row yields the row builder. -/
theorem loan_gauge.schedule_getD (P r : ℚ) (y i : ℕ)
    (h : i < loan_gauge.n_payments y) :
    (loan_gauge.generate_mortgage_schedule P r y).getD i default
      = loan_gauge.mkRow P r y (i + 1) := by
  have hlen : i < (loan_gauge.generate_mortgage_schedule P r y).length := by
    simpa [loan_gauge.generate_mortgage_schedule] using h
  rw [List.getD_eq_getElem _ _ hlen]
  simp [loan_gauge.generate_mortgage_schedule]

/-- Membership in the generated schedule, spelled out. -/
theorem loan_gauge.mem_schedule (P r : ℚ) (y : ℕ) (row : loan_gauge.Row) :
    row ∈ loan_gauge.generate_mortgage_schedule P r y
      ↔ ∃ i < loan_gauge.n_payments y, row = loan_gauge.mkRow P r y (i + 1) := by
  simp [loan_gauge.generate_mortgage_schedule, eq_comm]

/-- Each month, the principal and interest columns recompose the payment. -/
theorem loan_gauge.principal_add_interest (P r : ℚ) (y m : ℕ) :
    loan_gauge.monthly_principle P r y m + loan_gauge.monthly_interest P r y m
      = loan_gauge.monthly_payment P r y := by
  rw [loan_gauge.monthly_principle, loan_gauge.monthly_interest,
    loan_gauge.monthly_payment]
  exact npf.ppmt_add_ipmt _ _ _ _

/-- Indexing the app module's DataFrame with a default row yields its row
builder. -/
theorem app.payments_getD (P r : ℚ) (y i : ℕ) (h : i < y * 12) :
    (app.monthly_payments P r y).getD i default = app.mkRow P r y (i + 1) := by
  have hlen : i < (app.monthly_payments P r y).length := by
    simpa [app.monthly_payments] using h
  rw [List.getD_eq_getElem _ _ hlen]
  simp [app.monthly_payments]

/-- A rounded value is within half a unit of the value. -/
theorem abs_roundHalfEven_sub_le (x : ℚ) : |(roundHalfEven x : ℚ) - x| ≤ 1/2 := by
  have h0 : (⌊x⌋ : ℚ) ≤ x := Int.floor_le x
  have h1 : x < ⌊x⌋ + 1 := Int.lt_floor_add_one x
  unfold roundHalfEven
  split_ifs with hlt hgt hev
  · rw [abs_le]
    constructor <;> linarith
  · push_cast
    rw [abs_le]
    constructor <;> linarith
  · rw [abs_le]
    constructor <;> linarith
  · push_cast
    rw [abs_le]
    constructor <;> linarith

/-- Rounding to two decimal places moves a value by at most `1/200`. -/
theorem abs_npRound_sub_le (x : ℚ) : |npRound x 2 - x| ≤ 1/200 := by
  have h := abs_roundHalfEven_sub_le (x * 10 ^ 2)
  rw [npRound]
  have : (roundHalfEven (x * 10 ^ 2) : ℚ) / 10 ^ 2 - x
      = ((roundHalfEven (x * 10 ^ 2) : ℚ) - x * 10 ^ 2) / 10 ^ 2 := by ring
  rw [this, abs_div]
  rw [show |(10:ℚ) ^ 2| = 100 by norm_num]
  linarith

/-- Rounding zero gives zero. -/
theorem npRound_zero (d : ℕ) : npRound 0 d = 0 := by
  simp [npRound, roundHalfEven]

end helper_lemmas

/-- C1 (counterexample): at the invalid input `principal = 0` (with rate 0.045
and a one-year term) the generator does not fail and does not produce an empty
result: it returns 12 rows, refuting the claim that invalid input raises
`InvalidLoanTermsError` and produces no output rows. -/
theorem C1_counterexample :
    (loan_gauge.generate_mortgage_schedule 0 (45/1000) 1).length = 12 := by
  simp [loan_gauge.generate_mortgage_schedule, loan_gauge.n_payments]

/-- C1 (amended): `generate_mortgage_schedule` performs no input validation at
all — there is no `InvalidLoanTermsError` anywhere in the code — and for every
input, valid or not, it returns a schedule of `years * 12` rows. -/
theorem C1_no_validation (P r : ℚ) (y : ℕ) :
    (loan_gauge.generate_mortgage_schedule P r y).length = y * 12 := by
  simp [loan_gauge.generate_mortgage_schedule, loan_gauge.n_payments]

/-- C10: for `years = 0` with any principal and rate, the generator raises no
error and returns an empty table: the month range is empty, so the result has
zero rows. -/
theorem C10_zero_years_empty (P r : ℚ) :
    loan_gauge.generate_mortgage_schedule P r 0 = [] := by
  simp [loan_gauge.generate_mortgage_schedule, loan_gauge.n_payments]

/-- C4: for every valid input the schedule has exactly `years * 12` rows and
the months are 1-indexed in order, row `i` carrying month `i + 1`. -/
theorem C4_row_count_and_month_order (P r : ℚ) (y : ℕ) (hP : 0 < P)
    (hr : 0 ≤ r) (hy : 1 ≤ y) :
    (loan_gauge.generate_mortgage_schedule P r y).length = y * 12 ∧
    ∀ i, i < y * 12 →
      ((loan_gauge.generate_mortgage_schedule P r y).getD i default).month = i + 1 := by
  constructor
  · simp [loan_gauge.generate_mortgage_schedule, loan_gauge.n_payments]
  · intro i hi
    rw [loan_gauge.schedule_getD P r y i (by simpa [loan_gauge.n_payments] using hi)]
    rfl

/-- Witness for C4 at the concrete valid input (1200, 0, 1 year). -/
theorem C4_witness :
    0 < (1200 : ℚ) ∧ 0 ≤ (0 : ℚ) ∧ 1 ≤ 1 ∧
    ((loan_gauge.generate_mortgage_schedule 1200 0 1).length = 1 * 12 ∧
     ∀ i, i < 1 * 12 →
       ((loan_gauge.generate_mortgage_schedule 1200 0 1).getD i default).month = i + 1) :=
  ⟨by norm_num, le_refl 0, le_refl 1,
    C4_row_count_and_month_order 1200 0 1 (by norm_num) (le_refl 0) (le_refl 1)⟩

/-- C3: for every valid input the final row's remaining balance is exactly 0
(and hence also within the 0.01 tolerance). -/
theorem C3_final_balance_zero (P r : ℚ) (y : ℕ) (hP : 0 < P) (hr : 0 ≤ r)
    (hy : 1 ≤ y) :
    ((loan_gauge.generate_mortgage_schedule P r y).getD (y * 12 - 1) default).remainingBalance
        = 0 ∧
    |((loan_gauge.generate_mortgage_schedule P r y).getD (y * 12 - 1) default).remainingBalance|
        ≤ 1/100 := by
  have hidx : y * 12 - 1 < loan_gauge.n_payments y := by
    simp only [loan_gauge.n_payments]
    omega
  have hm : y * 12 - 1 + 1 = loan_gauge.n_payments y := by
    simp only [loan_gauge.n_payments]
    omega
  rw [loan_gauge.schedule_getD P r y _ hidx]
  have hz : (loan_gauge.mkRow P r y (y * 12 - 1 + 1)).remainingBalance = 0 := by
    show npRound (loan_gauge.remaining_balance P r y (y * 12 - 1 + 1)) 2 = 0
    rw [hm, loan_gauge.remaining_balance,
      loan_gauge.cumulative_principal_total P r y hr hy, sub_self, npRound_zero]
  rw [hz]
  norm_num

/-- Witness for C3 at the concrete valid input (1200, 0, 1 year). -/
theorem C3_witness :
    0 < (1200 : ℚ) ∧ 0 ≤ (0 : ℚ) ∧ 1 ≤ 1 ∧
    (((loan_gauge.generate_mortgage_schedule 1200 0 1).getD (1 * 12 - 1) default).remainingBalance
        = 0 ∧
     |((loan_gauge.generate_mortgage_schedule 1200 0 1).getD (1 * 12 - 1) default).remainingBalance|
        ≤ 1/100) :=
  ⟨by norm_num, le_refl 0, le_refl 1,
    C3_final_balance_zero 1200 0 1 (by norm_num) (le_refl 0) (le_refl 1)⟩

/-- C5: for every valid input with positive rate, the remaining-balance series
the code computes (line 55, `principal - cumulative_principal`) strictly
decreases from one month to the next, and equals principal minus the
cumulative principal by construction. -/
theorem C5_remaining_balance_strictly_decreasing (P r : ℚ) (y : ℕ) (hP : 0 < P)
    (hr : 0 < r) (hy : 1 ≤ y) (m : ℕ) (hm : 1 ≤ m)
    (hmn : m ≤ loan_gauge.n_payments y) :
    loan_gauge.remaining_balance P r y m < loan_gauge.remaining_balance P r y (m - 1) ∧
    loan_gauge.remaining_balance P r y m = P - loan_gauge.cumulative_principal P r y m := by
  refine ⟨?_, rfl⟩
  obtain ⟨k, rfl⟩ : ∃ k, m = k + 1 := ⟨m - 1, by omega⟩
  rw [loan_gauge.remaining_balance_eq_fv, loan_gauge.remaining_balance_eq_fv]
  simp only [Nat.add_sub_cancel]
  have hrate : 0 < loan_gauge.monthly_interest_rate r := by
    rw [loan_gauge.monthly_interest_rate]
    positivity
  have hn : loan_gauge.n_payments y ≠ 0 := by
    simp only [loan_gauge.n_payments]
    omega
  exact npf.fv_pmt_strict_anti _ P _ hP hrate hn k

/-- Witness for C5 at the concrete valid input (1000, 0.12, 1 year), month 1. -/
theorem C5_witness :
    0 < (1000 : ℚ) ∧ 0 < (12/100 : ℚ) ∧ 1 ≤ 1 ∧ 1 ≤ 1 ∧
    1 ≤ loan_gauge.n_payments 1 ∧
    (loan_gauge.remaining_balance 1000 (12/100) 1 1
        < loan_gauge.remaining_balance 1000 (12/100) 1 (1 - 1) ∧
     loan_gauge.remaining_balance 1000 (12/100) 1 1
        = 1000 - loan_gauge.cumulative_principal 1000 (12/100) 1 1) :=
  ⟨by norm_num, by norm_num, le_refl 1, le_refl 1,
    by norm_num [loan_gauge.n_payments],
    C5_remaining_balance_strictly_decreasing 1000 (12/100) 1 (by norm_num)
      (by norm_num) (le_refl 1) 1 (le_refl 1) (by norm_num [loan_gauge.n_payments])⟩

/-- C6: for every valid input, every row carries the same payment column (the
rounded fixed payment), and on every row the rounded principal and interest
portions recompose that payment within 0.01. -/
theorem C6_payment_constant_and_split (P r : ℚ) (y : ℕ) (hP : 0 < P)
    (hr : 0 ≤ r) (hy : 1 ≤ y) :
    ∀ row ∈ loan_gauge.generate_mortgage_schedule P r y,
      row.monthlyPayment = npRound (loan_gauge.monthly_payment P r y) 2 ∧
      |row.monthlyPrincipal + row.monthlyInterest - row.monthlyPayment| ≤ 1/100 := by
  intro row hrow
  rw [loan_gauge.mem_schedule] at hrow
  obtain ⟨i, hi, rfl⟩ := hrow
  refine ⟨rfl, ?_⟩
  show |npRound (loan_gauge.monthly_principle P r y (i + 1)) 2
      + npRound (loan_gauge.monthly_interest P r y (i + 1)) 2
      - npRound (loan_gauge.monthly_payment P r y) 2| ≤ 1/100
  have hsum := loan_gauge.principal_add_interest P r y (i + 1)
  have e1 := abs_npRound_sub_le (loan_gauge.monthly_principle P r y (i + 1))
  have e2 := abs_npRound_sub_le (loan_gauge.monthly_interest P r y (i + 1))
  have e3 := abs_npRound_sub_le (loan_gauge.monthly_payment P r y)
  set a := npRound (loan_gauge.monthly_principle P r y (i + 1)) 2 with ha
  set b := npRound (loan_gauge.monthly_interest P r y (i + 1)) 2 with hb
  set c := npRound (loan_gauge.monthly_payment P r y) 2 with hc
  have hz : ∃ z : ℤ, a + b - c = (z : ℚ) / 100 := by
    refine ⟨roundHalfEven (loan_gauge.monthly_principle P r y (i + 1) * 10 ^ 2)
        + roundHalfEven (loan_gauge.monthly_interest P r y (i + 1) * 10 ^ 2)
        - roundHalfEven (loan_gauge.monthly_payment P r y * 10 ^ 2), ?_⟩
    rw [ha, hb, hc]
    simp only [npRound]
    push_cast
    ring
  obtain ⟨z, hzeq⟩ := hz
  have habs : |a + b - c| ≤ 3/200 := by
    have hsplit : a + b - c
        = (a - loan_gauge.monthly_principle P r y (i + 1))
          + (b - loan_gauge.monthly_interest P r y (i + 1))
          - (c - loan_gauge.monthly_payment P r y) := by
      linarith
    rw [hsplit]
    have t1 := abs_add (a - loan_gauge.monthly_principle P r y (i + 1))
      (b - loan_gauge.monthly_interest P r y (i + 1))
    have t2 := abs_sub ((a - loan_gauge.monthly_principle P r y (i + 1))
        + (b - loan_gauge.monthly_interest P r y (i + 1)))
      (c - loan_gauge.monthly_payment P r y)
    linarith
  have hz32 : |(z : ℚ)| ≤ 3/2 := by
    rw [hzeq, abs_div] at habs
    rw [show |(100 : ℚ)| = 100 by norm_num] at habs
    linarith
  have hz1 : |z| ≤ 1 := by
    have hcast : ((|z| : ℤ) : ℚ) ≤ 3/2 := by
      rw [Int.cast_abs]
      exact hz32
    have : (|z| : ℤ) < 2 := by
      by_contra hcon
      push_neg at hcon
      have : ((2 : ℤ) : ℚ) ≤ ((|z| : ℤ) : ℚ) := by exact_mod_cast hcon
      norm_num at this
      linarith
    omega
  rw [hzeq, abs_div, show |(100 : ℚ)| = 100 by norm_num]
  have : |(z : ℚ)| ≤ 1 := by
    rw [← Int.cast_abs]
    exact_mod_cast hz1
  linarith

/-- Witness for C6 at the concrete valid input (1200, 0, 1 year). -/
theorem C6_witness :
    0 < (1200 : ℚ) ∧ 0 ≤ (0 : ℚ) ∧ 1 ≤ 1 ∧
    ∀ row ∈ loan_gauge.generate_mortgage_schedule 1200 0 1,
      row.monthlyPayment = npRound (loan_gauge.monthly_payment 1200 0 1) 2 ∧
      |row.monthlyPrincipal + row.monthlyInterest - row.monthlyPayment| ≤ 1/100 :=
  ⟨by norm_num, le_refl 0, le_refl 1,
    C6_payment_constant_and_split 1200 0 1 (by norm_num) (le_refl 0) (le_refl 1)⟩

/-- C7: with a zero interest rate and a valid term, the computed fixed payment
is exactly principal divided by the number of months; every row's interest
column is 0 and every row's payment column is the rounding of that exact
quotient. -/
theorem C7_zero_rate (P : ℚ) (y : ℕ) (hP : 0 < P) (hy : 1 ≤ y) :
    loan_gauge.monthly_payment P 0 y = P / ((y : ℚ) * 12) ∧
    ∀ row ∈ loan_gauge.generate_mortgage_schedule P 0 y,
      row.monthlyInterest = 0 ∧
      row.monthlyPayment = npRound (P / ((y : ℚ) * 12)) 2 := by
  have hpay : loan_gauge.monthly_payment P 0 y = P / ((y : ℚ) * 12) := by
    rw [loan_gauge.monthly_payment, loan_gauge.monthly_interest_rate, npf.pmt]
    simp only [zero_div, if_pos rfl, one_pow, loan_gauge.n_payments]
    push_cast
    ring
  refine ⟨hpay, ?_⟩
  intro row hrow
  rw [loan_gauge.mem_schedule] at hrow
  obtain ⟨i, hi, rfl⟩ := hrow
  constructor
  · show npRound (loan_gauge.monthly_interest P 0 y (i + 1)) 2 = 0
    have hzero : loan_gauge.monthly_interest P 0 y (i + 1) = 0 := by
      rw [loan_gauge.monthly_interest, npf.ipmt, loan_gauge.monthly_interest_rate]
      simp
    rw [hzero, npRound_zero]
  · show npRound (loan_gauge.monthly_payment P 0 y) 2 = _
    rw [hpay]

/-- Witness for C7 at the concrete input (1200, 1 year). -/
theorem C7_witness :
    0 < (1200 : ℚ) ∧ 1 ≤ 1 ∧
    (loan_gauge.monthly_payment 1200 0 1 = 1200 / ((1 : ℚ) * 12) ∧
     ∀ row ∈ loan_gauge.generate_mortgage_schedule 1200 0 1,
       row.monthlyInterest = 0 ∧
       row.monthlyPayment = npRound (1200 / ((1 : ℚ) * 12)) 2) :=
  ⟨by norm_num, le_refl 1, C7_zero_rate 1200 1 (by norm_num) (le_refl 1)⟩

/-- C2: the code does not round all monetary columns to 2 decimals under one
policy. At principal 1000, rate 0.12, one year, the month-2 row stores
cumulative interest 19 (the source passes `np.round` no digit count for the
two cumulative columns, so they are rounded to integers), while the uniform
2-decimal policy demands 19.21. -/
theorem C2_cumulative_interest_not_two_decimals :
    ((loan_gauge.generate_mortgage_schedule 1000 (12/100) 1).getD 1 default).interestPaid
        = 19 ∧
    npRound (loan_gauge.cumulative_interest 1000 (12/100) 1 2) 2 = 1921/100 ∧
    ((loan_gauge.generate_mortgage_schedule 1000 (12/100) 1).getD 1 default).interestPaid
        ≠ npRound (loan_gauge.cumulative_interest 1000 (12/100) 1 2) 2 := by
  have hrow := loan_gauge.schedule_getD 1000 (12/100) 1 1
    (by norm_num [loan_gauge.n_payments])
  rw [hrow]
  have h1 : (loan_gauge.mkRow 1000 (12/100) 1 2).interestPaid = 19 := by
    show npRound (loan_gauge.cumulative_interest 1000 (12/100) 1 2) 0 = 19
    norm_num [loan_gauge.cumulative_interest, loan_gauge.monthly_interest,
      loan_gauge.monthly_interest_rate, loan_gauge.n_payments, npf.ipmt, npf.pmt,
      npf.fv, npRound, roundHalfEven, Finset.sum_range_succ, Finset.sum_range_zero]
  have h2 : npRound (loan_gauge.cumulative_interest 1000 (12/100) 1 2) 2 = 1921/100 := by
    norm_num [loan_gauge.cumulative_interest, loan_gauge.monthly_interest,
      loan_gauge.monthly_interest_rate, loan_gauge.n_payments, npf.ipmt, npf.pmt,
      npf.fv, npRound, roundHalfEven, Finset.sum_range_succ, Finset.sum_range_zero]
  refine ⟨h1, h2, ?_⟩
  rw [h1, h2]
  norm_num

/-- C8 (counterexample): at principal 300000, rate 0.045, 25 years, the
payment column holds 1667.50, not 1667.34 as the claim states. -/
theorem C8_counterexample :
    ((loan_gauge.generate_mortgage_schedule 300000 (45/1000) 25).getD 0 default).monthlyPayment
        = 3335/2 ∧
    1/10 < |(3335/2 : ℚ) - 166734/100| := by
  constructor
  · rw [loan_gauge.schedule_getD 300000 (45/1000) 25 0
      (by norm_num [loan_gauge.n_payments])]
    show npRound (loan_gauge.monthly_payment 300000 (45/1000) 25) 2 = 3335/2
    norm_num [loan_gauge.monthly_payment, loan_gauge.monthly_interest_rate,
      loan_gauge.n_payments, npf.pmt, npRound, roundHalfEven]
  · rw [show (3335/2 : ℚ) - 166734/100 = 4/25 by norm_num,
      abs_of_pos (by norm_num : (0 : ℚ) < 4/25)]
    norm_num

/-- C8 (amended): at principal 300000, rate 0.045, 25 years, the schedule has
300 rows, the first row's interest portion is 1125.00, the payment rounded to
cents is 1667.50 (the standard annuity value; the claim's 1667.34 is wrong),
and the final row's remaining balance is 0.00. -/
theorem C8_concrete_scenario :
    (loan_gauge.generate_mortgage_schedule 300000 (45/1000) 25).length = 300 ∧
    ((loan_gauge.generate_mortgage_schedule 300000 (45/1000) 25).getD 0 default).monthlyInterest
        = 1125 ∧
    ((loan_gauge.generate_mortgage_schedule 300000 (45/1000) 25).getD 0 default).monthlyPayment
        = 3335/2 ∧
    ((loan_gauge.generate_mortgage_schedule 300000 (45/1000) 25).getD 299 default).remainingBalance
        = 0 := by
  have hrow0 := loan_gauge.schedule_getD 300000 (45/1000) 25 0
    (by norm_num [loan_gauge.n_payments])
  have hrow299 := loan_gauge.schedule_getD 300000 (45/1000) 25 299
    (by norm_num [loan_gauge.n_payments])
  refine ⟨?_, ?_, ?_, ?_⟩
  · simp [loan_gauge.generate_mortgage_schedule, loan_gauge.n_payments]
  · rw [hrow0]
    show npRound (loan_gauge.monthly_interest 300000 (45/1000) 25 1) 2 = 1125
    norm_num [loan_gauge.monthly_interest, loan_gauge.monthly_interest_rate,
      loan_gauge.n_payments, npf.ipmt, npf.pmt, npf.fv, npRound, roundHalfEven]
  · rw [hrow0]
    show npRound (loan_gauge.monthly_payment 300000 (45/1000) 25) 2 = 3335/2
    norm_num [loan_gauge.monthly_payment, loan_gauge.monthly_interest_rate,
      loan_gauge.n_payments, npf.pmt, npRound, roundHalfEven]
  · rw [hrow299]
    show npRound (loan_gauge.remaining_balance 300000 (45/1000) 25 (299 + 1)) 2 = 0
    have hn : (299 : ℕ) + 1 = loan_gauge.n_payments 25 := by
      norm_num [loan_gauge.n_payments]
    rw [hn, loan_gauge.remaining_balance,
      loan_gauge.cumulative_principal_total 300000 (45/1000) 25 (by norm_num)
        (by norm_num), sub_self, npRound_zero]

/-- C9: the two generators are not equivalent. At principal 300000, rate
0.045, 25 years, in the first row the app module's `Principal Paid` and
`Interest Paid` are negative where the loan_gauge module's are positive, the
app module's remaining balance exceeds the principal (it adds the cumulative
principal instead of subtracting it), the loan_gauge module's is below it,
and the two remaining-balance values differ. -/
theorem C9_implementations_disagree :
    ((app.monthly_payments 300000 (45/1000) 25).getD 0 default).principalPaid < 0 ∧
    0 < ((loan_gauge.generate_mortgage_schedule 300000 (45/1000) 25).getD 0 default).principalPaid ∧
    ((app.monthly_payments 300000 (45/1000) 25).getD 0 default).interestPaid < 0 ∧
    0 < ((loan_gauge.generate_mortgage_schedule 300000 (45/1000) 25).getD 0 default).interestPaid ∧
    300000 < ((app.monthly_payments 300000 (45/1000) 25).getD 0 default).remainingBalance ∧
    ((loan_gauge.generate_mortgage_schedule 300000 (45/1000) 25).getD 0 default).remainingBalance
        < 300000 ∧
    ((app.monthly_payments 300000 (45/1000) 25).getD 0 default).remainingBalance
        ≠ ((loan_gauge.generate_mortgage_schedule 300000 (45/1000) 25).getD 0 default).remainingBalance := by
  have hrowa := app.payments_getD 300000 (45/1000) 25 0 (by norm_num)
  have hrowg := loan_gauge.schedule_getD 300000 (45/1000) 25 0
    (by norm_num [loan_gauge.n_payments])
  rw [hrowa, hrowg]
  refine ⟨?_, ?_, ?_, ?_, ?_, ?_, ?_⟩
  · norm_num [app.mkRow, npf.ppmt, npf.ipmt, npf.pmt, npf.fv]
  · show 0 < npRound (loan_gauge.cumulative_principal 300000 (45/1000) 25 1) 0
    norm_num [loan_gauge.cumulative_principal, loan_gauge.monthly_principle,
      loan_gauge.monthly_interest_rate, loan_gauge.n_payments, npf.ppmt, npf.ipmt,
      npf.pmt, npf.fv, npRound, roundHalfEven, Finset.sum_range_one]
  · norm_num [app.mkRow, npf.ipmt, npf.pmt, npf.fv]
  · show 0 < npRound (loan_gauge.cumulative_interest 300000 (45/1000) 25 1) 0
    norm_num [loan_gauge.cumulative_interest, loan_gauge.monthly_interest,
      loan_gauge.monthly_interest_rate, loan_gauge.n_payments, npf.ipmt,
      npf.pmt, npf.fv, npRound, roundHalfEven, Finset.sum_range_one]
  · norm_num [app.mkRow, npf.ppmt, npf.ipmt, npf.pmt, npf.fv, Finset.sum_range_one]
  · show npRound (loan_gauge.remaining_balance 300000 (45/1000) 25 1) 2 < 300000
    norm_num [loan_gauge.remaining_balance, loan_gauge.cumulative_principal,
      loan_gauge.monthly_principle, loan_gauge.monthly_interest_rate,
      loan_gauge.n_payments, npf.ppmt, npf.ipmt, npf.pmt, npf.fv, npRound,
      roundHalfEven, Finset.sum_range_one]
  · show _ ≠ npRound (loan_gauge.remaining_balance 300000 (45/1000) 25 1) 2
    norm_num [app.mkRow, loan_gauge.remaining_balance, loan_gauge.cumulative_principal,
      loan_gauge.monthly_principle, loan_gauge.monthly_interest_rate,
      loan_gauge.n_payments, npf.ppmt, npf.ipmt, npf.pmt, npf.fv, npRound,
      roundHalfEven, Finset.sum_range_one]
